import Mathlib

/-!
Verification of the client-side product acquisition pipeline of the
CRUD-Ecommerce repository: the Redux products slice
(`shoppingProductSlice` with its thunks `fetchAllFilteredProducts` and
`fetchProductsFromMongoDB`), the `ShoppingListing` component's
fallback-mode effects, and the server-side Firebase products controller.
Each definition is a shallow embedding of the corresponding JavaScript
function.
-/

namespace ShopAcq

/-- JavaScript truthiness for `s || d` on an optional string: `undefined`,
`null` and the empty string all fall through to the default. -/
def jsOr (s : Option String) (d : String) : String :=
  match s with
  | some v => if v = "" then d else v
  | none => d

/-- Body of an HTTP error response as the thunks read it: the optional
`message` and `error` fields. `none` models an absent field. -/
structure RespData where
  message : Option String
  error : Option String
deriving DecidableEq, Repr

/-- An HTTP response attached to an axios error (`error.response`). -/
structure HttpResponse where
  status : Nat
  data : RespData
deriving DecidableEq, Repr

/-- A raw axios failure: an optional HTTP response, an optional transport
error code (e.g. "ECONNABORTED"), and an optional message. -/
structure RawError where
  response : Option HttpResponse
  code : Option String
  message : Option String
deriving DecidableEq, Repr

/-- The classified error payload produced by `rejectWithValue` in the
thunks: `{ type, message, code }`. -/
structure ErrPayload where
  type : String
  message : String
  code : String
deriving DecidableEq, Repr

/-- Error classifier of the Firebase thunk `fetchAllFilteredProducts`
(catch block, src/unnamed/part_000 lines 59-121): if a response is
present, branch on status 401 / 404 / 500 / other; otherwise branch on
the "ECONNABORTED" transport code; otherwise a generic network error. -/
def classifyFirebaseError (e : RawError) : ErrPayload :=
  match e.response with
  | some r =>
    if r.status = 401 then
      ⟨"AUTH_ERROR", jsOr r.data.message "Authentication required. Please log in.",
        "UNAUTHORIZED"⟩
    else if r.status = 404 then
      ⟨"NOT_FOUND", "Products not found", "PRODUCTS_NOT_FOUND"⟩
    else if r.status = 500 then
      ⟨"SERVER_ERROR", jsOr r.data.error "Server error while fetching products",
        "SERVER_ERROR"⟩
    else
      ⟨"API_ERROR", jsOr r.data.message "Failed to fetch products", "API_ERROR"⟩
  | none =>
    if e.code = some "ECONNABORTED" then
      ⟨"NETWORK_ERROR", "Request timeout. Please check your connection.", "TIMEOUT"⟩
    else
      ⟨"NETWORK_ERROR", jsOr e.message "Network error occurred", "NETWORK_ERROR"⟩

/-- Error classifier of the MongoDB fallback thunk
`fetchProductsFromMongoDB` (catch block, src/unnamed/part_000 lines
201-208): every failure collapses to a single DATABASE_ERROR payload,
keeping only the response body message when present. -/
def classifyMongoError (e : RawError) : ErrPayload :=
  ⟨"DATABASE_ERROR",
    jsOr (e.response.bind fun r => r.data.message) "Failed to fetch products",
    "DATABASE_ERROR"⟩

/-- The spec's semantic error categories (§3 ClassifiedError), plus the
DatabaseFault tag the fallback thunk actually produces. -/
inductive ErrCategory where
  | Unauthorized
  | NotFound
  | ServerFault
  | Timeout
  | NetworkFault
  | GenericApiFault
  | DatabaseFault
deriving DecidableEq, Repr

/-- Bridge from the payloads the code produces to the spec's categories:
AUTH_ERROR is Unauthorized, NOT_FOUND is NotFound, SERVER_ERROR is
ServerFault, NETWORK_ERROR splits by code into Timeout and NetworkFault,
DATABASE_ERROR is DatabaseFault, anything else is GenericApiFault. -/
def categoryOf (p : ErrPayload) : ErrCategory :=
  if p.type = "AUTH_ERROR" then .Unauthorized
  else if p.type = "NOT_FOUND" then .NotFound
  else if p.type = "SERVER_ERROR" then .ServerFault
  else if p.type = "DATABASE_ERROR" then .DatabaseFault
  else if p.type = "NETWORK_ERROR" then
    (if p.code = "TIMEOUT" then .Timeout else .NetworkFault)
  else .GenericApiFault

/-- Fulfilled payload of the product-list thunks: the server response
body, whose `data` field holds the records (possibly absent). Products
are opaque records; we carry them as strings. -/
structure SuccessPayload where
  data : Option (List String)
deriving DecidableEq, Repr

/-- State of `shoppingProductSlice` (src/unnamed/part_000 lines 5-12). -/
structure SliceState where
  isLoading : Bool
  productList : List String
  productDetails : Option String
  error : Option ErrPayload
  firebaseError : Option ErrPayload
  authError : Option ErrPayload
deriving DecidableEq, Repr

/-- `initialState` of the slice. -/
def initialState : SliceState :=
  { isLoading := false, productList := [], productDetails := none,
    error := none, firebaseError := none, authError := none }

/-- Reducer `clearProductErrors` (lines 219-223). -/
def clearProductErrors (s : SliceState) : SliceState :=
  { s with error := none, firebaseError := none, authError := none }

/-- Reducer for `fetchAllFilteredProducts.pending` (lines 232-237). -/
def fbPending (s : SliceState) : SliceState :=
  { s with isLoading := true, error := none, firebaseError := none, authError := none }

/-- Reducer for `fetchAllFilteredProducts.fulfilled` (lines 238-242):
`productList = action.payload.data || []` (an empty array is truthy in
JS, so only an absent field falls to `[]`). -/
def fbFulfilled (s : SliceState) (p : SuccessPayload) : SliceState :=
  { s with isLoading := false, productList := p.data.getD [], error := none }

/-- Reducer for `fetchAllFilteredProducts.rejected` (lines 243-256):
stores the payload in `error` unconditionally, then additionally in
`authError` for AUTH_ERROR or in `firebaseError` for NOT_FOUND. -/
def fbRejected (s : SliceState) (p : ErrPayload) : SliceState :=
  let s1 := { s with isLoading := false, productList := [], error := some p }
  if p.type = "AUTH_ERROR" then { s1 with authError := some p }
  else if p.type = "NOT_FOUND" then { s1 with firebaseError := some p }
  else { s1 with error := some p }

/-- Reducer for `fetchProductsFromMongoDB.pending` (lines 273-276):
clears only `error`, not `firebaseError` or `authError`. -/
def mongoPending (s : SliceState) : SliceState :=
  { s with isLoading := true, error := none }

/-- Reducer for `fetchProductsFromMongoDB.fulfilled` (lines 277-281). -/
def mongoFulfilled (s : SliceState) (p : SuccessPayload) : SliceState :=
  { s with isLoading := false, productList := p.data.getD [], error := none }

/-- Reducer for `fetchProductsFromMongoDB.rejected` (lines 282-286). -/
def mongoRejected (s : SliceState) (p : ErrPayload) : SliceState :=
  { s with isLoading := false, productList := [], error := some p }

/-- Dispatched slice actions relevant to the product-list pipeline, so
that interleavings of several in-flight requests can be replayed at the
reducer level exactly as Redux applies them: one action per settled or
started thunk lifecycle event. -/
inductive Action where
  | fbPendingA
  | fbFulfilledA (p : SuccessPayload)
  | fbRejectedA (e : ErrPayload)
  | mongoPendingA
  | mongoFulfilledA (p : SuccessPayload)
  | mongoRejectedA (e : ErrPayload)
  | clearErrorsA
deriving DecidableEq, Repr

/-- The combined slice reducer: case dispatch of `extraReducers` plus
`clearProductErrors` (src/unnamed/part_000 lines 215-287). There is no
request identifier anywhere in the state or the reducer: every settled
action is applied unconditionally. -/
def sliceReducer (s : SliceState) : Action → SliceState
  | .fbPendingA => fbPending s
  | .fbFulfilledA p => fbFulfilled s p
  | .fbRejectedA e => fbRejected s e
  | .mongoPendingA => mongoPending s
  | .mongoFulfilledA p => mongoFulfilled s p
  | .mongoRejectedA e => mongoRejected s e
  | .clearErrorsA => clearProductErrors s

/-- Replay a list of dispatched actions from the initial slice state. -/
def runActions (l : List Action) : SliceState :=
  l.foldl sliceReducer initialState

/-- State of the `ShoppingListing` component together with the slice it
reads (src/unnamed/part_001 lines 86-250): `fallbackMode` is the
component's source-mode flag, `filters` and `sort` mirror the React
state the `fetchProducts` guard reads (`null` as `none`), and the two
toast counters record the notifications the effects emit. -/
structure ViewState where
  slice : SliceState
  fallbackMode : Bool
  filters : Option (List (String × List String))
  sort : Option String
  switchedToasts : Nat
  authToasts : Nat
deriving DecidableEq, Repr

/-- Initial component state paired with the initial slice state:
`fallbackMode` starts false (Primary), no toasts emitted yet; filters
and sort are taken after the initial setup effect has run (filters set,
sort "price-lowtohigh"). -/
def initialView : ViewState :=
  { slice := initialState, fallbackMode := false,
    filters := some [], sort := some "price-lowtohigh",
    switchedToasts := 0, authToasts := 0 }

/-- The two error-handling effects of `ShoppingListing`, in declaration
order (src/unnamed/part_001 lines 189-210): if `authError` is set, toast
"Authentication Required" and dispatch `clearProductErrors`; then, if
`firebaseError` is set and the component is not yet in fallback mode,
set `fallbackMode` true and toast "Using Backup Database". -/
def runEffects (v : ViewState) : ViewState :=
  let v1 :=
    if v.slice.authError.isSome then
      { v with slice := clearProductErrors v.slice, authToasts := v.authToasts + 1 }
    else v
  if v1.slice.firebaseError.isSome && !v1.fallbackMode then
    { v1 with fallbackMode := true, switchedToasts := v1.switchedToasts + 1 }
  else v1

/-- One complete fetch that resolves successfully: `fetchProducts`
dispatches the thunk selected by `fallbackMode` (part_001 lines
176-186), Redux applies its pending then fulfilled reducers, and the
component effects run on the resulting state. -/
def doFetchSuccess (v : ViewState) (p : SuccessPayload) : ViewState :=
  if v.fallbackMode then
    runEffects { v with slice := mongoFulfilled (mongoPending v.slice) p }
  else
    runEffects { v with slice := fbFulfilled (fbPending v.slice) p }

/-- One complete fetch that fails with raw error `e`: the thunk selected
by `fallbackMode` classifies `e`, Redux applies its pending then
rejected reducers, and the component effects run. -/
def doFetchFailure (v : ViewState) (e : RawError) : ViewState :=
  if v.fallbackMode then
    runEffects { v with slice := mongoRejected (mongoPending v.slice) (classifyMongoError e) }
  else
    runEffects { v with slice := fbRejected (fbPending v.slice) (classifyFirebaseError e) }

/-- `handleRetryWithFirebase` (src/unnamed/part_001 lines 246-250):
sets `fallbackMode` false, dispatches `clearProductErrors`, then calls
`fetchProducts()`. The returned Bool records whether `fetchProducts`
dispatched a fetch, i.e. whether its guard `filters !== null && sort
!== null` held. -/
def handleRetryWithFirebase (v : ViewState) : ViewState × Bool :=
  let v1 := { v with fallbackMode := false, slice := clearProductErrors v.slice }
  (v1, v1.filters.isSome && v1.sort.isSome)

/-- Consumer-visible operations on the acquisition pipeline, each
processed to completion (reducers plus effects). -/
inductive Op where
  | success (p : SuccessPayload)
  | failure (e : RawError)
  | retryPrimary
  | clearErr
deriving DecidableEq, Repr

/-- Apply one operation to completion. -/
def applyOp (v : ViewState) : Op → ViewState
  | .success p => doFetchSuccess v p
  | .failure e => doFetchFailure v e
  | .retryPrimary => (handleRetryWithFirebase v).1
  | .clearErr => runEffects { v with slice := clearProductErrors v.slice }

/-- Replay a list of operations from the initial component state. -/
def reach (ops : List Op) : ViewState :=
  ops.foldl applyOp initialView

/-- Facet parsing of `getFilteredProductsFromFirebase`
(src/server/controllers/shop/products-controller.js lines 52-53):
`typeof q === "string" ? q.split(",").filter(Boolean) : q`, with the
destructuring default `[]` when the parameter is absent. -/
def parseFacet (q : Option String) : List String :=
  match q with
  | some s => (s.splitOn ",").filter (fun x => x ≠ "")
  | none => []

/-- The `where ... in` facet constraints the Firebase products endpoint
builds: `none` when the facet filter is empty (no constraint pushed). -/
structure FacetConstraints where
  categoryIn : Option (List String)
  brandIn : Option (List String)
deriving DecidableEq, Repr

/-- Constraint construction of `getFilteredProductsFromFirebase`
(products-controller.js lines 59-69): when a facet has selected values,
push a `where in` constraint over `values.slice(0, 10)`; values beyond
the first 10 are dropped with no error returned to the caller. -/
def buildFacetConstraints (categories brands : List String) : FacetConstraints :=
  { categoryIn := if categories.length > 0 then some (categories.take 10) else none,
    brandIn := if brands.length > 0 then some (brands.take 10) else none }

/-- Modelled from the spec: the Error Classifier exactly as the claim
orders its rules (transport abort/timeout first, then HTTP 401 / 404 /
500 / any other response, then no-response network fault), using the
response-body message when present, else a fixed default per category.
Written only for comparison against `classifyFirebaseError`, the
classifier the code implements. -/
def classifyByClaimOrder (e : RawError) : ErrPayload :=
  if e.code = some "ECONNABORTED" then
    ⟨"NETWORK_ERROR", "Request timeout. Please check your connection.", "TIMEOUT"⟩
  else
    match e.response with
    | some r =>
      if r.status = 401 then
        ⟨"AUTH_ERROR", jsOr r.data.message "Authentication required. Please log in.",
          "UNAUTHORIZED"⟩
      else if r.status = 404 then
        ⟨"NOT_FOUND", jsOr r.data.message "Products not found", "PRODUCTS_NOT_FOUND"⟩
      else if r.status = 500 then
        ⟨"SERVER_ERROR", jsOr r.data.message "Server error while fetching products",
          "SERVER_ERROR"⟩
      else
        ⟨"API_ERROR", jsOr r.data.message "Failed to fetch products", "API_ERROR"⟩
    | none =>
      ⟨"NETWORK_ERROR", jsOr e.message "Network error occurred", "NETWORK_ERROR"⟩

/-- A bare HTTP 401 failure (no body fields). -/
def raw401 : RawError := ⟨some ⟨401, ⟨none, none⟩⟩, none, none⟩

/-- A bare HTTP 404 failure (no body fields). -/
def raw404 : RawError := ⟨some ⟨404, ⟨none, none⟩⟩, none, none⟩

/-- A bare HTTP 500 failure (no body fields). -/
def raw500 : RawError := ⟨some ⟨500, ⟨none, none⟩⟩, none, none⟩

/-- A transport timeout: no response, axios code "ECONNABORTED". -/
def rawTimeout : RawError := ⟨none, some "ECONNABORTED", none⟩

/-- An HTTP 404 failure whose body carries a message field. -/
def raw404WithMsg : RawError :=
  ⟨some ⟨404, ⟨some "custom not-found detail", none⟩⟩, none, none⟩

/-- A failure that is both a transport abort and carries an HTTP 401
response: the two classifier rule orders disagree on it. -/
def raw401Abort : RawError := ⟨some ⟨401, ⟨none, none⟩⟩, some "ECONNABORTED", none⟩

/-- The state invariant the code actually maintains after every
completed operation: no live AUTH_ERROR remains (the auth effect clears
it during processing), and in Primary mode no live NOT_FOUND marker
remains (a live marker forces the switch to Fallback). -/
def ControllerInv (v : ViewState) : Prop :=
  v.slice.authError = none ∧ (v.fallbackMode = false → v.slice.firebaseError = none)

theorem categoryOf_notFound {p : ErrPayload} (h : categoryOf p = .NotFound) :
    p.type = "NOT_FOUND" := by
  unfold categoryOf at h
  split_ifs at h <;> simp_all

theorem categoryOf_unauthorized {p : ErrPayload} (h : categoryOf p = .Unauthorized) :
    p.type = "AUTH_ERROR" := by
  unfold categoryOf at h
  split_ifs at h <;> simp_all

theorem categoryOf_frame {p : ErrPayload}
    (h : categoryOf p = .ServerFault ∨ categoryOf p = .Timeout ∨
         categoryOf p = .NetworkFault ∨ categoryOf p = .GenericApiFault) :
    p.type ≠ "AUTH_ERROR" ∧ p.type ≠ "NOT_FOUND" := by
  unfold categoryOf at h
  split_ifs at h <;> simp_all

theorem runEffects_authError_none (v : ViewState) :
    (runEffects v).slice.authError = none := by
  unfold runEffects
  by_cases h : v.slice.authError.isSome <;>
    simp [h, clearProductErrors] <;> split_ifs <;> simp_all

theorem runEffects_firebaseError_none (v : ViewState)
    (h : (runEffects v).fallbackMode = false) :
    (runEffects v).slice.firebaseError = none := by
  unfold runEffects at h ⊢
  by_cases ha : v.slice.authError.isSome <;>
    simp [ha, clearProductErrors] at h ⊢ <;> split_ifs at h ⊢ <;> simp_all

theorem applyOp_inv (v : ViewState) (op : Op) : ControllerInv (applyOp v op) := by
  cases op with
  | success p =>
    unfold applyOp doFetchSuccess
    split_ifs <;>
      exact ⟨runEffects_authError_none _, fun h => runEffects_firebaseError_none _ h⟩
  | failure e =>
    unfold applyOp doFetchFailure
    split_ifs <;>
      exact ⟨runEffects_authError_none _, fun h => runEffects_firebaseError_none _ h⟩
  | retryPrimary =>
    exact ⟨rfl, fun _ => rfl⟩
  | clearErr =>
    exact ⟨runEffects_authError_none _, fun h => runEffects_firebaseError_none _ h⟩

theorem foldl_applyOp_inv (l : List Op) (v : ViewState) (hv : ControllerInv v) :
    ControllerInv (l.foldl applyOp v) := by
  induction l generalizing v with
  | nil => exact hv
  | cons a t ih => exact ih _ (applyOp_inv v a)

theorem reach_inv (ops : List Op) : ControllerInv (reach ops) :=
  foldl_applyOp_inv ops initialView ⟨rfl, fun _ => rfl⟩

/-- C1 counterexample: a Primary-mode failure classified as Unauthorized
(HTTP 401) does NOT switch the mode to Fallback and emits no "switched"
notification — the authError effect only toasts "Authentication
Required" and clears the errors, so the claim fails for the Unauthorized
category at this concrete input. -/
theorem C1_counterexample :
    categoryOf (classifyFirebaseError raw401) = ErrCategory.Unauthorized ∧
    (doFetchFailure initialView raw401).fallbackMode = false ∧
    (doFetchFailure initialView raw401).switchedToasts = 0 := by decide

/-- C1 (amended): only a Primary-mode failure classified as NotFound
switches the mode to Fallback, emitting exactly one "switched"
notification; a Primary-mode Unauthorized failure leaves the mode
Primary and emits no switched notification; and while the mode is
Fallback no operation emits a further switched notification (the next
one can come only after retryPrimary resets the flag). -/
theorem C1_fallback_switch (v : ViewState) (e : RawError) :
    (v.fallbackMode = false → categoryOf (classifyFirebaseError e) = ErrCategory.NotFound →
      (doFetchFailure v e).fallbackMode = true ∧
      (doFetchFailure v e).switchedToasts = v.switchedToasts + 1) ∧
    (v.fallbackMode = false → categoryOf (classifyFirebaseError e) = ErrCategory.Unauthorized →
      (doFetchFailure v e).fallbackMode = false ∧
      (doFetchFailure v e).switchedToasts = v.switchedToasts) ∧
    (∀ op : Op, v.fallbackMode = true →
      (applyOp v op).switchedToasts = v.switchedToasts) := by
  refine ⟨fun hm hc => ?_, fun hm hc => ?_, fun op hm => ?_⟩
  · have ht := categoryOf_notFound hc
    simp [doFetchFailure, hm, fbPending, fbRejected, runEffects, clearProductErrors, ht]
  · have ht := categoryOf_unauthorized hc
    simp [doFetchFailure, hm, fbPending, fbRejected, runEffects, clearProductErrors, ht]
  · cases op <;>
      simp only [applyOp, doFetchSuccess, doFetchFailure, runEffects,
        handleRetryWithFirebase, mongoPending, mongoFulfilled, mongoRejected,
        clearProductErrors, hm, if_true, if_false] <;>
      split_ifs <;> simp_all

/-- Witness for C1_fallback_switch at the concrete input raw404 from the
initial state. -/
theorem C1_fallback_switch_witness :
    (doFetchFailure initialView raw404).fallbackMode = true ∧
    (doFetchFailure initialView raw404).switchedToasts = initialView.switchedToasts + 1 :=
  (C1_fallback_switch initialView raw404).1 rfl (by decide)

/-- C2 counterexample: issue fetch(A), then fetch(B); B's result arrives
and is applied, then A's result arrives. The reducer applies A's stale
result unconditionally, so the final productList reflects A, not B —
last-request-wins does not hold. -/
theorem C2_counterexample :
    (runActions [Action.fbPendingA, Action.fbPendingA,
        Action.fbFulfilledA ⟨some ["product-B"]⟩,
        Action.fbFulfilledA ⟨some ["product-A"]⟩]).productList = ["product-A"] ∧
    (["product-A"] : List String) ≠ ["product-B"] := by decide

/-- C2 (amended): the slice carries no request identifier and the
reducers apply every settled result unconditionally, so the last result
to arrive wins (last-arrival-wins), regardless of the order in which the
requests were issued; nothing is ever discarded. -/
theorem C2_last_arrival_wins (s : SliceState) (p q : SuccessPayload) :
    (sliceReducer s (Action.fbFulfilledA p)).productList = p.data.getD [] ∧
    (sliceReducer (sliceReducer s (Action.fbFulfilledA q))
        (Action.fbFulfilledA p)).productList = p.data.getD [] ∧
    (sliceReducer s (Action.mongoFulfilledA p)).productList = p.data.getD [] := by
  simp [sliceReducer, fbFulfilled, mongoFulfilled]

/-- C4: a Primary-mode failure classified as ServerFault, Timeout,
NetworkFault or GenericApiFault leaves the mode Primary and emits no
switched notification. -/
theorem C4_no_switch (v : ViewState) (e : RawError)
    (hm : v.fallbackMode = false)
    (hc : categoryOf (classifyFirebaseError e) = ErrCategory.ServerFault ∨
          categoryOf (classifyFirebaseError e) = ErrCategory.Timeout ∨
          categoryOf (classifyFirebaseError e) = ErrCategory.NetworkFault ∨
          categoryOf (classifyFirebaseError e) = ErrCategory.GenericApiFault) :
    (doFetchFailure v e).fallbackMode = false ∧
    (doFetchFailure v e).switchedToasts = v.switchedToasts := by
  obtain ⟨h1, h2⟩ := categoryOf_frame hc
  simp [doFetchFailure, hm, fbPending, fbRejected, runEffects, clearProductErrors, h1, h2]

/-- Witness for C4_no_switch at the concrete input raw500 (ServerFault)
from the initial state. -/
theorem C4_no_switch_witness :
    (doFetchFailure initialView raw500).fallbackMode = false ∧
    (doFetchFailure initialView raw500).switchedToasts = initialView.switchedToasts :=
  C4_no_switch initialView raw500 rfl (by decide)

/-- C5 counterexample: a single Primary-mode NotFound failure from the
initial state leaves the classified error held in two non-null slots at
once (error and firebaseError), so the Controller does not hold at most
one non-null ClassifiedError. -/
theorem C5_counterexample :
    (reach [Op.failure raw404]).slice.error.isSome = true ∧
    (reach [Op.failure raw404]).slice.firebaseError.isSome = true ∧
    (reach [Op.failure raw404]).slice.error =
      (reach [Op.failure raw404]).slice.firebaseError := by decide

/-- C5 (amended): the invariant the code maintains after every completed
operation from the initial state is weaker than claimed: no live
Unauthorized error remains (the auth effect clears it during
processing), and in Primary mode no live NotFound marker remains; but
the Controller may hold the current error in two non-null slots at
once. -/
theorem C5_invariant (ops : List Op) :
    (reach ops).slice.authError = none ∧
    ((reach ops).fallbackMode = false → (reach ops).slice.firebaseError = none) :=
  reach_inv ops

/-- Witness for C5_invariant at the concrete operation list of one
Unauthorized failure, discharging the inner implication there. -/
theorem C5_invariant_witness :
    (reach [Op.failure raw401]).slice.authError = none ∧
    (reach [Op.failure raw401]).slice.firebaseError = none :=
  ⟨(C5_invariant [Op.failure raw401]).1, (C5_invariant [Op.failure raw401]).2 (by decide)⟩

/-- C3 counterexample: the classifier does not apply the claim's rule
order or message policy. On a 404 whose body carries a message the code
returns the fixed string "Products not found", ignoring the body
message; and on an input that is both a transport abort and an HTTP 401
response the code classifies by the response (Unauthorized) while the
claim's order would classify it as Timeout. -/
theorem C3_counterexample :
    (classifyFirebaseError raw404WithMsg).message = "Products not found" ∧
    (raw404WithMsg.response.bind fun r => r.data.message) = some "custom not-found detail" ∧
    classifyFirebaseError raw401Abort ≠ classifyByClaimOrder raw401Abort ∧
    categoryOf (classifyByClaimOrder raw401Abort) = ErrCategory.Timeout ∧
    categoryOf (classifyFirebaseError raw401Abort) = ErrCategory.Unauthorized := by decide

/-- C3 (amended): the classifier is a total pure function, but its rules
check the HTTP response first: 401 maps to Unauthorized (body message
when present, else a fixed default), 404 maps to NotFound with a fixed
message regardless of the body, 500 maps to ServerFault using the body
error field (not message), any other response maps to GenericApiFault
(body message else default); only when no response was received does a
transport abort map to Timeout, and anything else to NetworkFault. -/
theorem C3_rules (e : RawError) :
    (∀ r, e.response = some r → r.status = 401 →
      categoryOf (classifyFirebaseError e) = ErrCategory.Unauthorized ∧
      (classifyFirebaseError e).message =
        jsOr r.data.message "Authentication required. Please log in.") ∧
    (∀ r, e.response = some r → r.status = 404 →
      categoryOf (classifyFirebaseError e) = ErrCategory.NotFound ∧
      (classifyFirebaseError e).message = "Products not found") ∧
    (∀ r, e.response = some r → r.status = 500 →
      categoryOf (classifyFirebaseError e) = ErrCategory.ServerFault ∧
      (classifyFirebaseError e).message =
        jsOr r.data.error "Server error while fetching products") ∧
    (∀ r, e.response = some r → r.status ≠ 401 → r.status ≠ 404 → r.status ≠ 500 →
      categoryOf (classifyFirebaseError e) = ErrCategory.GenericApiFault) ∧
    (e.response = none → e.code = some "ECONNABORTED" →
      categoryOf (classifyFirebaseError e) = ErrCategory.Timeout) ∧
    (e.response = none → e.code ≠ some "ECONNABORTED" →
      categoryOf (classifyFirebaseError e) = ErrCategory.NetworkFault) := by
  refine ⟨fun r h1 h2 => ?_, fun r h1 h2 => ?_, fun r h1 h2 => ?_,
    fun r h1 h2 h3 h4 => ?_, fun h1 h2 => ?_, fun h1 h2 => ?_⟩ <;>
    simp [classifyFirebaseError, categoryOf, h1, h2] <;> simp_all

/-- Witness for C3_rules at the concrete input raw401. -/
theorem C3_rules_witness :
    categoryOf (classifyFirebaseError raw401) = ErrCategory.Unauthorized ∧
    (classifyFirebaseError raw401).message = "Authentication required. Please log in." :=
  (C3_rules raw401).1 ⟨401, ⟨none, none⟩⟩ rfl rfl

/-- C6 counterexample: a Fallback-mode fetch failing with HTTP 500 does
not surface ServerFault — the MongoDB thunk collapses every failure to a
DATABASE_ERROR payload — though the mode does remain Fallback. -/
theorem C6_counterexample :
    (reach [Op.failure raw404]).fallbackMode = true ∧
    (doFetchFailure (reach [Op.failure raw404]) raw500).slice.error.map categoryOf =
      some ErrCategory.DatabaseFault ∧
    some ErrCategory.DatabaseFault ≠ some ErrCategory.ServerFault ∧
    (doFetchFailure (reach [Op.failure raw404]) raw500).fallbackMode = true := by decide

/-- C6 (amended): for every reachable Fallback-mode state, a failure
causes no further mode switch and stores the MongoDB thunk's
classification of the raw failure — always the single DATABASE_ERROR
category (keeping only the body message when present), never the
per-status category; in particular an HTTP 500 yields DATABASE_ERROR
with the mode remaining Fallback. -/
theorem C6_fallback_failure (ops : List Op) (e : RawError)
    (hm : (reach ops).fallbackMode = true) :
    (doFetchFailure (reach ops) e).fallbackMode = true ∧
    (doFetchFailure (reach ops) e).slice.error = some (classifyMongoError e) ∧
    categoryOf (classifyMongoError e) = ErrCategory.DatabaseFault := by
  obtain ⟨ha, _⟩ := reach_inv ops
  refine ⟨?_, ?_, by simp [classifyMongoError, categoryOf]⟩ <;>
    simp [doFetchFailure, hm, mongoPending, mongoRejected, runEffects,
      clearProductErrors, ha]

/-- Witness for C6_fallback_failure: one NotFound failure reaches
Fallback mode, then an HTTP 500 failure is processed there. -/
theorem C6_fallback_failure_witness :
    (doFetchFailure (reach [Op.failure raw404]) raw500).fallbackMode = true ∧
    (doFetchFailure (reach [Op.failure raw404]) raw500).slice.error =
      some (classifyMongoError raw500) ∧
    categoryOf (classifyMongoError raw500) = ErrCategory.DatabaseFault :=
  C6_fallback_failure [Op.failure raw404] raw500 (by decide)

/-- C7 counterexample: from a concrete Fallback-mode state,
handleRetryWithFirebase does itself invoke fetch (its third statement
calls fetchProducts, whose guard holds since filters and sort are set),
contradicting the claim that retryPrimary does not itself invoke fetch. -/
theorem C7_counterexample :
    (handleRetryWithFirebase (reach [Op.failure raw404])).2 = true := by decide

/-- C7 (amended): after handleRetryWithFirebase the mode is Primary and
every held error slot is cleared, regardless of prior state; but the
handler also calls fetchProducts itself, dispatching a fetch exactly
when the component's filters and sort are initialized. -/
theorem C7_retry_resets (v : ViewState) :
    (handleRetryWithFirebase v).1.fallbackMode = false ∧
    (handleRetryWithFirebase v).1.slice.error = none ∧
    (handleRetryWithFirebase v).1.slice.firebaseError = none ∧
    (handleRetryWithFirebase v).1.slice.authError = none ∧
    (handleRetryWithFirebase v).2 = (v.filters.isSome && v.sort.isSome) := by
  simp [handleRetryWithFirebase, clearProductErrors]

/-- C8: a fetch that resolves successfully stores the returned records
as the product list (an absent data field becomes the empty list),
clears the surfaced error, and leaves the mode unchanged; a success
carrying zero records yields the empty product list with no error, so
an empty result is distinguishable from an error state. -/
theorem C8_success_applies (v : ViewState) (p : SuccessPayload) :
    (doFetchSuccess v p).slice.error = none ∧
    (doFetchSuccess v p).slice.productList = p.data.getD [] ∧
    (doFetchSuccess v p).fallbackMode = v.fallbackMode ∧
    (doFetchSuccess v ⟨some []⟩).slice.productList = [] := by
  refine ⟨?_, ?_, ?_, ?_⟩ <;>
    simp only [doFetchSuccess, runEffects, fbPending, fbFulfilled, mongoPending,
      mongoFulfilled, clearProductErrors] <;>
    split_ifs <;> simp_all

/-- C9: both rejected reducers reset the product list to the empty list,
so a previously held successful product list is discarded on every
failed fetch rather than retained alongside the stored error. -/
theorem C9_rejected_resets_list (s : SliceState) (p : ErrPayload) :
    (fbRejected s p).productList = [] ∧ (mongoRejected s p).productList = [] := by
  unfold fbRejected mongoRejected
  split_ifs <;> simp

/-- C10: the Firebase products endpoint truncates each facet filter to
its first 10 selected values — with more than 10 values only the first
10 are applied as the where-in constraint and the remainder are
ignored; the returned constraints carry no error indication. -/
theorem C10_facet_truncation (cats brands : List String)
    (hc : cats.length > 10) (hb : brands.length > 10) :
    (buildFacetConstraints cats brands).categoryIn = some (cats.take 10) ∧
    (buildFacetConstraints cats brands).brandIn = some (brands.take 10) ∧
    (cats.take 10).length = 10 ∧ (brands.take 10).length = 10 ∧
    cats.take 10 ≠ cats ∧ brands.take 10 ≠ brands := by
  have hc0 : 0 < cats.length := by omega
  have hb0 : 0 < brands.length := by omega
  refine ⟨by simp [buildFacetConstraints, hc0], by simp [buildFacetConstraints, hb0],
    by simp [List.length_take]; omega, by simp [List.length_take]; omega, ?_, ?_⟩
  · intro h
    have := congrArg List.length h
    simp [List.length_take] at this
    omega
  · intro h
    have := congrArg List.length h
    simp [List.length_take] at this
    omega

/-- An 11-value category filter, as the endpoint holds it after parsing
the comma-separated query parameter. -/
def cats11 : List String :=
  ["c01", "c02", "c03", "c04", "c05", "c06", "c07", "c08", "c09", "c10", "c11"]

/-- An 11-value brand filter, as the endpoint holds it after parsing the
comma-separated query parameter. -/
def brands11 : List String :=
  ["b01", "b02", "b03", "b04", "b05", "b06", "b07", "b08", "b09", "b10", "b11"]

/-- Witness for C10_facet_truncation at concrete 11-value filters. -/
theorem C10_facet_truncation_witness :
    (buildFacetConstraints cats11 brands11).categoryIn = some (cats11.take 10) ∧
    (buildFacetConstraints cats11 brands11).brandIn = some (brands11.take 10) ∧
    (cats11.take 10).length = 10 ∧ (brands11.take 10).length = 10 ∧
    cats11.take 10 ≠ cats11 ∧ brands11.take 10 ≠ brands11 :=
  C10_facet_truncation cats11 brands11 (by decide) (by decide)

end ShopAcq
